import Mathlib

/-!
Shallow embedding of the GerustThuis admin portal's behavioural anomaly
engine (day-detail view) and of the shared calculation utilities in
`src/composables/useDataQuality.js`.

JavaScript numbers are modelled as exact rationals; the four JS value
states a numeric expression can take in this code base (a number, NaN,
null, undefined) are modelled by the inductive type `JV`.  Integer-valued
subcomputations (time-string parsing) are carried out over `ℤ` with
`none` standing for NaN, and injected into `JV` at the boundary.
-/

namespace Gerust

/-- A JavaScript value as it flows through the engine's numeric code:
a finite number (modelled exactly by a rational), NaN, null, or undefined. -/
inductive JV where
  | num (q : ℚ)
  | nan
  | null
  | undef
deriving DecidableEq, Repr

/-- True exactly on finite numbers (a row passes the scorer's
`zScore !== null && !isNaN(zScore)` filter iff this holds). -/
def JV.isNum : JV → Bool
  | .num _ => true
  | _ => false

/-- JS `String.prototype.split(':')` at the character-list level:
splits on every colon, keeping empty segments. -/
def splitCh : List Char → List (List Char)
  | [] => [[]]
  | c :: rest =>
    if c = ':' then [] :: splitCh rest
    else
      match splitCh rest with
      | [] => [[c]]
      | p :: ps => (c :: p) :: ps

/-- Value of the leading run of decimal digits; `none` when the first
character is not a digit (or the list is empty), as `parseInt` then NaN. -/
def leadDigits : List Char → Option ℕ → Option ℕ
  | [], acc => acc
  | c :: rest, acc =>
    if c.isDigit then
      leadDigits rest (some ((acc.getD 0) * 10 + (c.toNat - '0'.toNat)))
    else acc

/-- JS `parseInt` on a `:`-separated segment of a time string: an optional
sign followed by leading digits; `none` (NaN) when no digit leads. -/
def parseIntZ (l : List Char) : Option ℤ :=
  match l with
  | '-' :: rest => (leadDigits rest none).map (fun n => -(n : ℤ))
  | '+' :: rest => (leadDigits rest none).map (fun n => (n : ℤ))
  | _ => (leadDigits l none).map (fun n => (n : ℤ))

/-- `parseInt(parts[i])`: an out-of-range index is `undefined` and parses
to NaN. -/
def parseIntAt (parts : List (List Char)) (i : ℕ) : Option ℤ :=
  match parts.get? i with
  | none => none
  | some l => parseIntZ l

/-- JS falsiness of a nullable string: null/undefined or the empty string. -/
def falsyS : Option String → Bool
  | none => true
  | some s => s = ""

/-- Integer core of `timeToMinutes`: falsy input gives 0; otherwise
`parseInt(parts[0]) * 60 + parseInt(parts[1])`, where a NaN operand
(`none`) contaminates the JS arithmetic. -/
def timeToMinutesZ (t : Option String) : Option ℤ :=
  if falsyS t then some 0
  else
    let parts := splitCh (t.getD "").data
    match parseIntAt parts 0, parseIntAt parts 1 with
    | some a, some b => some (a * 60 + b)
    | _, _ => none

/-- `timeToMinutes` from useDataQuality.js, as the JS value it returns. -/
def timeToMinutes (t : Option String) : JV :=
  match timeToMinutesZ t with
  | some z => .num (z : ℚ)
  | none => .nan

/-- JS truncation toward zero (the rounding of `%`'s implicit quotient). -/
def jsTrunc (q : ℚ) : ℤ :=
  if 0 ≤ q then ⌊q⌋ else ⌈q⌉

/-- JS `%`: remainder with the sign of the dividend. -/
def jsMod (a b : ℚ) : ℚ :=
  a - b * (jsTrunc (a / b) : ℚ)

/-- JS `Math.round`: half-up toward positive infinity. -/
def jsRound (q : ℚ) : ℤ := ⌊q + 1 / 2⌋

/-- JS `String(n).padStart(2, '0')`. -/
def padStart2 (s : String) : String :=
  if s.length < 2 then String.mk (List.replicate (2 - s.length) '0') ++ s else s

/-- `formatMinutesToTime` from useDataQuality.js: null/undefined gives null;
otherwise `HH:MM` from `Math.floor(m / 60)` and `Math.round(m % 60)`. -/
def formatMinutesToTime (m : Option ℚ) : Option String :=
  match m with
  | none => none
  | some q =>
    some (padStart2 (toString (⌊q / 60⌋)) ++ ":" ++ padStart2 (toString (jsRound (jsMod q 60))))

/-- `awakeDuration` from useDataQuality.js: null on a falsy input; null when
both parsed times are 0; otherwise `Math.max(0, last - first)`
(NaN when a parse fails). -/
def awakeDuration (firstActivity lastActivity : Option String) : JV :=
  if falsyS firstActivity ∨ falsyS lastActivity then .null
  else
    match timeToMinutesZ firstActivity, timeToMinutesZ lastActivity with
    | some a, some b => if a = 0 ∧ b = 0 then .null else .num ((max 0 (b - a) : ℤ) : ℚ)
    | _, _ => .nan

/-- A row of `room_activity_hourly` as the engine consumes it. -/
structure RoomRow where
  room_name : String
  hour : String
  motion_events : Option ℚ := none
  door_events : Option ℚ := none
  total_events : Option ℚ := none
deriving DecidableEq, Repr

/-- A row of `daily_activity_stats` (today's record or a historical day);
`none` models a SQL null. -/
structure DayStats where
  date : String := ""
  first_activity : Option String := none
  last_activity : Option String := none
  total_events : Option ℚ := none
  active_hours : Option ℚ := none
  longest_gap_minutes : Option ℚ := none
  night_events : Option ℚ := none
  night_active_hours : Option ℚ := none
  rooms_active : Option ℚ := none
  rooms_available : Option ℚ := none
  motion_events : Option ℚ := none
  door_events : Option ℚ := none
  events_per_hour : Option (List ℚ) := none
deriving DecidableEq, Repr

/-- The 18 feature keys of the catalog (string keys in the source). -/
inductive FeatureKey where
  | first_activity | last_activity | awake_duration
  | total_events | active_hours | morning_events | afternoon_events | evening_events
  | longest_gap_minutes | night_events | night_active_hours
  | rooms_active | room_ratio | main_room_pct
  | motion_events | door_events
  | transition_count | activity_regularity
deriving DecidableEq, Repr

/-- A catalog entry; presentation-only fields (label, unit, isDerived,
isRoomData) are omitted, they influence no computation. -/
structure Feature where
  key : FeatureKey
  weight : ℚ
  isTime : Bool := false
  isRoomFeature : Bool := false
deriving DecidableEq, Repr

/-- `featureGroups.flatMap(g => g.features)` in source order. -/
def allFeatures : List Feature :=
  [ ⟨.first_activity, 1, true, false⟩,
    ⟨.last_activity, 1, true, false⟩,
    ⟨.awake_duration, 4/5, false, false⟩,
    ⟨.total_events, 1, false, false⟩,
    ⟨.active_hours, 1, false, false⟩,
    ⟨.morning_events, 4/5, false, false⟩,
    ⟨.afternoon_events, 4/5, false, false⟩,
    ⟨.evening_events, 4/5, false, false⟩,
    ⟨.longest_gap_minutes, 6/5, false, false⟩,
    ⟨.night_events, 1, false, false⟩,
    ⟨.night_active_hours, 4/5, false, false⟩,
    ⟨.rooms_active, 4/5, false, false⟩,
    ⟨.room_ratio, 3/5, false, true⟩,
    ⟨.main_room_pct, 3/5, false, true⟩,
    ⟨.motion_events, 4/5, false, false⟩,
    ⟨.door_events, 4/5, false, false⟩,
    ⟨.transition_count, 3/5, false, true⟩,
    ⟨.activity_regularity, 3/5, false, false⟩ ]

/-- `activeFeatures`: room features are kept only when
`dayStats.value?.rooms_available || 0` exceeds 1. -/
def activeFeatures (ds : Option DayStats) : List Feature :=
  let roomsAvailable : ℚ := (ds.bind (·.rooms_available)).getD 0
  allFeatures.filter (fun f => if f.isRoomFeature then decide (1 < roomsAvailable) else true)

/-- `sumEventsInRange`: 0 when the array is null or shorter than 24,
else the sum of `eventsPerHour[h] || 0` for `h` in `[s, e]`. -/
def sumEventsInRange (eph : Option (List ℚ)) (s e : ℕ) : ℚ :=
  match eph with
  | none => 0
  | some l =>
    if l.length < 24 then 0
    else ((List.range' s (e + 1 - s)).map (fun h => l.getD h 0)).sum

/-- JS `Math.sqrt` on a nonnegative rational.  This model is exact on
perfect-square rationals, which are the only inputs at which any theorem
below evaluates it (it occurs only inside `cosineSimilarity`, whose
non-degenerate branch no claim exercises). -/
def ratSqrt (q : ℚ) : ℚ :=
  (Nat.sqrt q.num.toNat : ℚ) / (Nat.sqrt q.den : ℚ)

/-- `cosineSimilarity` from useDataQuality.js: 0 on length mismatch or a
zero norm, else `dot / (sqrt(normA) * sqrt(normB))`.  Null-array guards
live in the callers, which pass only non-null arrays. -/
def cosineSimilarity (a b : List ℚ) : ℚ :=
  if a.length ≠ b.length then 0
  else
    let dot := (a.zipWith (· * ·) b).sum
    let normA := (a.map (· ^ 2)).sum
    let normB := (b.map (· ^ 2)).sum
    if normA = 0 ∨ normB = 0 then 0
    else dot / (ratSqrt normA * ratSqrt normB)

/-- `computeMainRoomPct`: per-room totals of `total_events || 0`, then
`Math.round(maxRoom / totalAll * 100)`; null for empty data or zero total. -/
def computeMainRoomPct (roomData : List RoomRow) : JV :=
  if roomData.isEmpty then .null
  else
    let names := (roomData.map (·.room_name)).dedup
    let totals := names.map (fun n =>
      ((roomData.filter (fun r => r.room_name = n)).map (fun r => r.total_events.getD 0)).sum)
    if totals.isEmpty then .null
    else
      let maxRoom := totals.foldl max (totals.headD 0)
      let totalAll := totals.sum
      if totalAll = 0 then .null
      else .num ((jsRound (maxRoom / totalAll * 100) : ℤ) : ℚ)

/-- Dominant room of one hour group: the first row strictly exceeding all
previous `total_events || 0`, starting from 0 events and no room. -/
def domRoom (rows : List RoomRow) : Option String :=
  (rows.foldl
    (fun (acc : Option String × ℚ) r =>
      if acc.2 < r.total_events.getD 0 then (some r.room_name, r.total_events.getD 0) else acc)
    (none, 0)).1

/-- Adjacent unequal pairs in the dominant-room sequence. -/
def countTransitions : List String → ℕ
  | a :: b :: rest => (if a = b then 0 else 1) + countTransitions (b :: rest)
  | _ => 0

/-- `computeTransitionCount`: rows sorted chronologically (ISO hour strings,
so lexicographic order; JS sort is stable), grouped by exact hour string,
hour keys sorted, dominant room per hour, falsy dominants dropped, then
the number of changes between consecutive dominant rooms. -/
def computeTransitionCount (roomData : List RoomRow) : JV :=
  if roomData.isEmpty then .null
  else
    let sorted := roomData.mergeSort (fun a b => a.hour ≤ b.hour)
    let hourKeys := ((sorted.map (·.hour)).dedup).mergeSort (fun a b => a ≤ b)
    let dominantRooms :=
      ((hourKeys.map (fun hk => domRoom (sorted.filter (fun r => r.hour = hk)))).filterMap id).filter
        (fun n => n ≠ "")
    .num (countTransitions dominantRooms)

/-- `?? null` on a nullable numeric field. -/
def optNum : Option ℚ → JV
  | some x => .num x
  | none => .null

/-- `getTodayValue(feature)`: today's raw value of a feature, from today's
`daily_activity_stats` row, today's room-hourly rows and the baseline
average hourly pattern. -/
def getTodayValue (rd : List RoomRow) (pat : Option (List ℚ)) (ds : DayStats) :
    FeatureKey → JV
  | .first_activity => timeToMinutes ds.first_activity
  | .last_activity => timeToMinutes ds.last_activity
  | .total_events => optNum ds.total_events
  | .active_hours => optNum ds.active_hours
  | .longest_gap_minutes => optNum ds.longest_gap_minutes
  | .night_events => optNum ds.night_events
  | .night_active_hours => optNum ds.night_active_hours
  | .rooms_active => optNum ds.rooms_active
  | .motion_events => optNum ds.motion_events
  | .door_events => optNum ds.door_events
  | .morning_events => .num (sumEventsInRange ds.events_per_hour 6 11)
  | .afternoon_events => .num (sumEventsInRange ds.events_per_hour 12 17)
  | .evening_events => .num (sumEventsInRange ds.events_per_hour 18 22)
  | .awake_duration => awakeDuration ds.first_activity ds.last_activity
  | .room_ratio =>
    match ds.rooms_available with
    | none => .null
    | some ra =>
      -- a null rooms_active numerator coerces to 0 in the JS division
      if ra = 0 then .null else .num (ds.rooms_active.getD 0 / ra)
  | .main_room_pct => computeMainRoomPct rd
  | .transition_count => computeTransitionCount rd
  | .activity_regularity =>
    match ds.events_per_hour, pat with
    | some e, some p => .num (cosineSimilarity e p)
    | _, _ => .null

/-- `getHistoricalValue(feature, day, roomData)`: same as the today
extraction except that a time field parsing to 0 while the raw field is
falsy yields null instead of 0. -/
def getHistoricalValue (pat : Option (List ℚ)) (roomData : List RoomRow) (day : DayStats) :
    FeatureKey → JV
  | .first_activity =>
    if timeToMinutes day.first_activity = .num 0 ∧ falsyS day.first_activity then .null
    else timeToMinutes day.first_activity
  | .last_activity =>
    if timeToMinutes day.last_activity = .num 0 ∧ falsyS day.last_activity then .null
    else timeToMinutes day.last_activity
  | .main_room_pct => computeMainRoomPct roomData
  | .transition_count => computeTransitionCount roomData
  | k => getTodayValue roomData pat day k

/-- `calculateZScore(value, mean, stddev)`: 0 when the stddev is 0 or any
of the three is strictly null (`===` does not match undefined); otherwise
JS arithmetic, which yields NaN as soon as an operand is undefined or NaN. -/
def calculateZScore (value mean stddev : JV) : JV :=
  if stddev = .num 0 ∨ stddev = .null ∨ value = .null ∨ mean = .null then .num 0
  else
    match value, mean, stddev with
    | .num v, .num m, .num s => .num ((v - m) / s)
    | _, _, _ => .nan

/-- Per-row severity bucket. -/
inductive Severity where
  | high | medium | low
deriving DecidableEq, Repr

/-- `Math.abs(z) > 2` → high, `> 1` → medium, else low; NaN comparisons
are false in JS, so a NaN z-score lands in `low`. -/
def sevOf : JV → Severity
  | .num x => if 2 < |x| then .high else if 1 < |x| then .medium else .low
  | _ => .low

/-- One entry of `scoreBreakdown`; the display-only string fields
(`todayValue`, `baselineValue`, `stddev`, `zScoreDisplay`) are omitted. -/
structure ScoreRow where
  key : FeatureKey
  weight : ℚ
  zScore : JV
  severity : Severity
deriving DecidableEq, Repr

/-- The `baselineStats` object as the scorer reads it: `avg_<key>` and
`std_<key>` entries (with the `_minutes` suffix for time features, applied
consistently by writer and reader, so keying by `FeatureKey` is faithful);
a missing entry reads as undefined. -/
structure ScorerBaseline where
  avg : FeatureKey → JV
  std : FeatureKey → JV

/-- `scoreBreakdown`: empty when today's stats or the baseline is null,
else one row per active feature, in catalog order. -/
def scoreBreakdown (ds : Option DayStats) (bs : Option ScorerBaseline)
    (rd : List RoomRow) (pat : Option (List ℚ)) : List ScoreRow :=
  match ds, bs with
  | some d, some b =>
    (activeFeatures ds).map (fun f =>
      let z := calculateZScore (getTodayValue rd pat d f.key) (b.avg f.key) (b.std f.key)
      { key := f.key, weight := f.weight, zScore := z, severity := sevOf z })
  | _, _ => []

/-- The scorer's `validScores` filter: z-score neither null nor NaN
(an undefined z-score would also be dropped, since `isNaN(undefined)`). -/
def validScores (rows : List ScoreRow) : List ScoreRow :=
  rows.filter (fun r => r.zScore.isNum)

/-- `Math.abs(zScore)` of a row (rows reaching this are finite numbers). -/
def rowAbsZ (r : ScoreRow) : ℚ :=
  match r.zScore with
  | .num x => |x|
  | _ => 0

/-- `Math.max(...validScores.map(|z|))`; the spread max over the nonempty
list of nonnegative magnitudes equals this fold from 0. -/
def maxAbsZ (rows : List ScoreRow) : ℚ :=
  ((validScores rows).map rowAbsZ).foldl max 0

/-- `validScores.reduce((sum, s) => sum + s.weight, 0)`. -/
def totalWeight (rows : List ScoreRow) : ℚ :=
  ((validScores rows).map (·.weight)).sum

/-- `Σ |z|·weight / Σ weight` over the valid rows. -/
def weightedAvgZ (rows : List ScoreRow) : ℚ :=
  ((validScores rows).map (fun r => rowAbsZ r * r.weight)).sum / totalWeight rows

/-- `anomalyScore`: 0 for no rows or no valid rows, else
`Math.min(1, (0.6·maxAbsZ + 0.4·weightedAvgZ) / 3)`. -/
def anomalyScore (rows : List ScoreRow) : ℚ :=
  if rows.isEmpty then 0
  else if (validScores rows).isEmpty then 0
  else min 1 ((3/5 * maxAbsZ rows + 2/5 * weightedAvgZ rows) / 3)

/-- The three labels (Normaal / Afwijkend / Sterk afwijkend). -/
inductive Label where
  | normal | elevated | strong
deriving DecidableEq, Repr

/-- `anomalyLabel`: score `< 0.33` → normal, `< 0.66` → elevated,
else strongly anomalous. -/
def anomalyLabel (score : ℚ) : Label :=
  if score < 33/100 then .normal
  else if score < 66/100 then .elevated
  else .strong

/-- `roomByDate[day.date] || []`: the room-hourly rows whose hour string
starts with the given date (`row.hour.substring(0, 10)`), in input order. -/
def roomByDate (roomData : List RoomRow) (date : String) : List RoomRow :=
  roomData.filter (fun r => r.hour.take 10 = date)

/-- `baselineAvgHourlyPattern`: elementwise mean of the historical
`events_per_hour` arrays of full length 24; null when none qualifies. -/
def avgHourlyPattern (dd : List DayStats) : Option (List ℚ) :=
  let pats := dd.filterMap (fun d =>
    match d.events_per_hour with
    | some l => if l.length = 24 then some l else none
    | none => none)
  if pats.isEmpty then none
  else some ((List.range 24).map (fun h => (pats.map (fun p => p.getD h 0)).sum / (pats.length : ℚ)))

/-- The survivor filter of the baseline loop:
`value !== null && value !== undefined && !isNaN(value)`. -/
def jvFinite : JV → Option ℚ
  | .num x => some x
  | _ => none

/-- The surviving historical sample values of one feature. -/
def featValues (dailyData : List DayStats) (roomData : List RoomRow) (k : FeatureKey) : List ℚ :=
  dailyData.filterMap (fun day =>
    jvFinite (getHistoricalValue (avgHourlyPattern dailyData) (roomByDate roomData day.date) day k))

/-- Arithmetic mean (callers guarantee a nonempty list). -/
def meanL (vs : List ℚ) : ℚ := vs.sum / (vs.length : ℚ)

/-- Population variance (callers guarantee a nonempty list). -/
def varL (vs : List ℚ) : ℚ := ((vs.map (fun v => (v - meanL vs) ^ 2)).sum) / (vs.length : ℚ)

/-- `Math.min(...values)` over a nonempty list. -/
def minL : List ℚ → ℚ
  | [] => 0
  | x :: xs => xs.foldl min x

/-- `Math.max(...values)` over a nonempty list. -/
def maxL : List ℚ → ℚ
  | [] => 0
  | x :: xs => xs.foldl max x

/-- One feature's stored baseline entry: mean, variance (the stored
stddev is `storedStd variance`), min, max. -/
structure FeatStat where
  mean : ℚ
  variance : ℚ
  vmin : ℚ
  vmax : ℚ
deriving DecidableEq, Repr

/-- The stored per-feature stddev: `Math.sqrt(variance) || 1`, i.e. the
square root, with exactly a zero root (degenerate distribution) replaced
by 1; a root strictly between 0 and 1 is stored as-is. -/
noncomputable def storedStd (variance : ℚ) : ℝ :=
  if Real.sqrt (variance : ℝ) = 0 then 1 else Real.sqrt (variance : ℝ)

/-- `loadBaselineStats`: null when the trailing window has no daily rows;
otherwise per-feature entries exist exactly for features with at least one
surviving sample.  The loop runs over `allFeatures` (not the active ones),
and each `FeatureKey` occurs exactly once there, so a lookup function is a
faithful model of the stats object (`daysCount` is carried alongside in
the source and is not modelled). -/
def loadBaselineStats (dailyData : List DayStats) (roomData : List RoomRow) :
    Option (FeatureKey → Option FeatStat) :=
  if dailyData.isEmpty then none
  else some (fun k =>
    let vs := featValues dailyData roomData k
    if vs.isEmpty then none
    else some ⟨meanL vs, varL vs, minL vs, maxL vs⟩)

/-- `avg` from useDataQuality.js: null on an empty array. -/
def avg? (arr : List ℚ) : Option ℚ :=
  if arr.isEmpty then none else some (meanL arr)

/-- `stddev` from useDataQuality.js: 1 for fewer than 2 samples, else the
population standard deviation with `|| 1` replacing a zero result. -/
noncomputable def stddev (arr : List ℚ) : ℝ :=
  if arr.length < 2 then 1 else storedStd (varL arr)

section Helpers

lemma calculateZScore_nums (v m s : ℚ) (h : s ≠ 0) :
    calculateZScore (.num v) (.num m) (.num s) = .num ((v - m) / s) := by
  simp [calculateZScore, h]

lemma calculateZScore_num_undef (q : ℚ) :
    calculateZScore (.num q) .undef .undef = .nan := by
  simp [calculateZScore]

lemma calculateZScore_null_undef :
    calculateZScore .null .undef .undef = .num 0 := by
  simp [calculateZScore]

lemma sevOf_nan : sevOf .nan = .low := rfl

lemma rowAbsZ_nonneg (r : ScoreRow) : 0 ≤ rowAbsZ r := by
  unfold rowAbsZ
  cases r.zScore <;> simp [abs_nonneg]

lemma le_foldlMax (l : List ℚ) (a : ℚ) : a ≤ l.foldl max a := by
  induction l generalizing a with
  | nil => exact le_refl a
  | cons x xs ih => exact le_trans (le_max_left a x) (ih (max a x))

lemma foldlMax_le (l : List ℚ) (a b : ℚ) (hb : ∀ x ∈ l, x ≤ b) (ha : a ≤ b) :
    l.foldl max a ≤ b := by
  induction l generalizing a with
  | nil => exact ha
  | cons x xs ih =>
    exact ih (max a x) (fun y hy => hb y (List.mem_cons_of_mem x hy))
      (max_le ha (hb x (List.mem_cons_self x xs)))

lemma maxAbsZ_nonneg (rows : List ScoreRow) : 0 ≤ maxAbsZ rows :=
  le_foldlMax _ 0

lemma maxAbsZ_le (rows : List ScoreRow) (b : ℚ) (hb : 0 ≤ b)
    (h : ∀ r ∈ validScores rows, rowAbsZ r ≤ b) : maxAbsZ rows ≤ b := by
  refine foldlMax_le _ 0 b ?_ hb
  intro x hx
  obtain ⟨r, hr, rfl⟩ := List.mem_map.mp hx
  exact h r hr

lemma weightedAvgZ_nonneg (rows : List ScoreRow)
    (hw : ∀ r ∈ validScores rows, 0 ≤ r.weight) (htw : 0 < totalWeight rows) :
    0 ≤ weightedAvgZ rows := by
  unfold weightedAvgZ
  refine div_nonneg ?_ (le_of_lt htw)
  refine List.sum_nonneg ?_
  intro x hx
  obtain ⟨r, hr, rfl⟩ := List.mem_map.mp hx
  exact mul_nonneg (rowAbsZ_nonneg r) (hw r hr)

lemma weightedAvgZ_le (rows : List ScoreRow) (b : ℚ)
    (h : ∀ r ∈ validScores rows, rowAbsZ r ≤ b)
    (hw : ∀ r ∈ validScores rows, 0 ≤ r.weight) (htw : 0 < totalWeight rows) :
    weightedAvgZ rows ≤ b := by
  unfold weightedAvgZ
  rw [div_le_iff₀ htw]
  calc ((validScores rows).map (fun r => rowAbsZ r * r.weight)).sum
      ≤ ((validScores rows).map (fun r => b * r.weight)).sum := by
        refine List.sum_le_sum ?_
        intro r hr
        exact mul_le_mul_of_nonneg_right (h r hr) (hw r hr)
    _ = b * totalWeight rows := by
        unfold totalWeight
        rw [← List.sum_map_mul_left]

lemma anomalyScore_eq_min (rows : List ScoreRow) (h : validScores rows ≠ []) :
    anomalyScore rows = min 1 ((3/5 * maxAbsZ rows + 2/5 * weightedAvgZ rows) / 3) := by
  unfold anomalyScore
  have h1 : rows ≠ [] := by
    intro hr
    exact h (by simp [validScores, hr])
  rw [if_neg (by simpa [List.isEmpty_iff] using h1),
    if_neg (by simpa [List.isEmpty_iff] using h)]

end Helpers

section Scenarios

/-- A concrete day with every feature input present: `total_events = 50`,
one room, an empty (truthy) hourly array. -/
def ds50 : DayStats :=
  { date := "2024-03-15", first_activity := some "06:30", last_activity := some "22:00",
    total_events := some 50, active_hours := some 10, longest_gap_minutes := some 45,
    night_events := some 2, night_active_hours := some 1, rooms_active := some 1,
    rooms_available := some 1, motion_events := some 30, door_events := some 20,
    events_per_hour := some [] }

/-- A baseline object carrying entries only for `total_events`:
mean 20, stddev 5; every other lookup is undefined. -/
def bsTE : ScorerBaseline :=
  { avg := fun k => match k with | .total_events => .num 20 | _ => .undef,
    std := fun k => match k with | .total_events => .num 5 | _ => .undef }

/-- The scoring run of the spec's first scenario. -/
def rows50 : List ScoreRow := scoreBreakdown (some ds50) (some bsTE) [] (some [])

/-- The same day with `total_events = 25`, so that the one scored feature
has z-score exactly 1. -/
def ds25 : DayStats := { ds50 with total_events := some 25 }

/-- The scoring run of the boundary scenario `|z| = 1`. -/
def rows25 : List ScoreRow := scoreBreakdown (some ds25) (some bsTE) [] (some [])

set_option maxHeartbeats 1000000 in
lemma validScores_rows50 : validScores rows50 = [⟨.total_events, 1, .num 6, .high⟩] := by
  have t1 : timeToMinutes (some "06:30") = .num 390 := by decide
  have t2 : timeToMinutes (some "22:00") = .num 1320 := by decide
  have t3 : awakeDuration (some "06:30") (some "22:00") = .num 930 := by decide
  norm_num [rows50, scoreBreakdown, validScores, activeFeatures, allFeatures, ds50, bsTE,
    getTodayValue, optNum, sevOf, sumEventsInRange, cosineSimilarity,
    JV.isNum, t1, t2, t3, List.filter,
    calculateZScore_nums, calculateZScore_num_undef, sevOf_nan]

set_option maxHeartbeats 1000000 in
lemma validScores_rows25 : validScores rows25 = [⟨.total_events, 1, .num 1, .low⟩] := by
  have t1 : timeToMinutes (some "06:30") = .num 390 := by decide
  have t2 : timeToMinutes (some "22:00") = .num 1320 := by decide
  have t3 : awakeDuration (some "06:30") (some "22:00") = .num 930 := by decide
  norm_num [rows25, scoreBreakdown, validScores, activeFeatures, allFeatures, ds25, ds50, bsTE,
    getTodayValue, optNum, sevOf, sumEventsInRange, cosineSimilarity,
    JV.isNum, t1, t2, t3, List.filter,
    calculateZScore_nums, calculateZScore_num_undef, sevOf_nan]

lemma anomalyScore_rows50 : anomalyScore rows50 = 1 := by
  rw [anomalyScore_eq_min rows50 (by rw [validScores_rows50]; simp)]
  rw [maxAbsZ, weightedAvgZ, totalWeight, validScores_rows50]
  norm_num [rowAbsZ]

lemma anomalyScore_rows25 : anomalyScore rows25 = 1/3 := by
  rw [anomalyScore_eq_min rows25 (by rw [validScores_rows25]; simp)]
  rw [maxAbsZ, weightedAvgZ, totalWeight, validScores_rows25]
  norm_num [rowAbsZ]

end Scenarios

/-- C1: whenever at least one feature is scored (and weights are the
nonnegative catalog weights with positive total), the aggregate anomaly
score equals `clamp((0.6·maxAbsZ + 0.4·weightedAvgAbsZ)/3, 0, 1)`; and in
the scenario where today's `total_events = 50` is scored against baseline
mean 20, stddev 5 as the only scored feature, `z = 6`, severity is high,
the aggregate is 1 and the label is "strongly anomalous". -/
theorem C1_anomaly_aggregate :
    (∀ rows : List ScoreRow, validScores rows ≠ [] →
      (∀ r ∈ validScores rows, 0 ≤ r.weight) → 0 < totalWeight rows →
      anomalyScore rows = max 0 (min 1 ((3/5 * maxAbsZ rows + 2/5 * weightedAvgZ rows) / 3)))
    ∧ validScores rows50 = [⟨.total_events, 1, .num 6, .high⟩]
    ∧ anomalyScore rows50 = 1
    ∧ anomalyLabel (anomalyScore rows50) = .strong := by
  refine ⟨?_, validScores_rows50, anomalyScore_rows50, ?_⟩
  · intro rows h hw htw
    rw [anomalyScore_eq_min rows h]
    have h1 := maxAbsZ_nonneg rows
    have h2 := weightedAvgZ_nonneg rows hw htw
    have h0 : (0:ℚ) ≤ (3/5 * maxAbsZ rows + 2/5 * weightedAvgZ rows) / 3 := by positivity
    rw [max_eq_right (le_min (by norm_num) h0)]
  · rw [anomalyScore_rows50]
    norm_num [anomalyLabel]

theorem C1_anomaly_aggregate_witness :
    anomalyScore rows50 =
      max 0 (min 1 ((3/5 * maxAbsZ rows50 + 2/5 * weightedAvgZ rows50) / 3)) :=
  C1_anomaly_aggregate.1 rows50
    (by rw [validScores_rows50]; simp)
    (by rw [validScores_rows50]; intro r hr; simp at hr; subst hr; norm_num)
    (by rw [totalWeight, validScores_rows50]; norm_num)

/-- C2 counterexample: a run whose only scored feature has |z| exactly 1
(today `total_events = 25` against baseline mean 20, stddev 5) has every
scored |z| ≤ 1, yet the aggregate is 1/3, which is not < 0.33, and the
label is "elevated", not "normal". -/
theorem C2_all_z_le_one_cex :
    ((validScores rows25).all (fun r => decide (rowAbsZ r ≤ 1))) = true
    ∧ anomalyScore rows25 = 1/3
    ∧ ¬ anomalyScore rows25 < 33/100
    ∧ anomalyLabel (anomalyScore rows25) = .elevated := by
  refine ⟨?_, anomalyScore_rows25, ?_, ?_⟩
  · rw [validScores_rows25]
    norm_num [rowAbsZ]
  · rw [anomalyScore_rows25]
    norm_num
  · rw [anomalyScore_rows25]
    norm_num [anomalyLabel]

/-- C2 amended: with every scored |z| ≤ 1 the aggregate is at most 1/3
(the boundary |z| = 1 reaches 1/3 ≥ 0.33 exactly, labelled "elevated");
the strict bound < 0.33 with label "normal" holds whenever every scored
|z| ≤ 0.97. -/
theorem C2_all_z_bounds (rows : List ScoreRow) (h : validScores rows ≠ [])
    (hw : ∀ r ∈ validScores rows, 0 ≤ r.weight) (htw : 0 < totalWeight rows) :
    ((∀ r ∈ validScores rows, rowAbsZ r ≤ 1) → anomalyScore rows ≤ 1/3)
    ∧ ((∀ r ∈ validScores rows, rowAbsZ r ≤ 97/100) →
        anomalyScore rows < 33/100 ∧ anomalyLabel (anomalyScore rows) = .normal) := by
  have key : ∀ b : ℚ, 0 ≤ b → (∀ r ∈ validScores rows, rowAbsZ r ≤ b) →
      anomalyScore rows ≤ b / 3 := by
    intro b hb hz
    rw [anomalyScore_eq_min rows h]
    refine le_trans (min_le_right _ _) ?_
    have h1 := maxAbsZ_le rows b hb hz
    have h2 := weightedAvgZ_le rows b hz hw htw
    linarith
  constructor
  · intro hz
    exact key 1 (by norm_num) hz
  · intro hz
    have hk := key (97/100) (by norm_num) hz
    have hlt : anomalyScore rows < 33/100 := by linarith
    refine ⟨hlt, ?_⟩
    unfold anomalyLabel
    rw [if_pos hlt]

theorem C2_all_z_bounds_witness : anomalyScore rows25 ≤ 1/3 :=
  (C2_all_z_bounds rows25
    (by rw [validScores_rows25]; simp)
    (by rw [validScores_rows25]; intro r hr; simp at hr; subst hr; norm_num)
    (by rw [totalWeight, validScores_rows25]; norm_num)).1
    (by rw [validScores_rows25]; intro r hr; simp at hr; subst hr; norm_num [rowAbsZ])

/-- C4 counterexample: with an undefined mean and stddev (the shape a
missing baseline entry produces) and a numeric today value, the z-score is
NaN, not 0 — `=== null` does not match undefined. -/
theorem C4_zscore_undef_cex :
    calculateZScore (.num 50) .undef .undef = .nan ∧ JV.nan ≠ JV.num 0 :=
  ⟨by decide, by decide⟩

/-- C4 amended: the z-score is 0 when the stddev is 0 or when any of the
three operands is null; it is `(today − mean)/stddev` when all three are
numbers with nonzero stddev; an undefined operand (not caught by the null
guards) yields NaN instead of 0. -/
theorem C4_zscore_characterization :
    (∀ m s : JV, calculateZScore .null m s = .num 0)
    ∧ (∀ v s : JV, calculateZScore v .null s = .num 0)
    ∧ (∀ v m : JV, calculateZScore v m .null = .num 0)
    ∧ (∀ v m : JV, calculateZScore v m (.num 0) = .num 0)
    ∧ (∀ v m s : ℚ, s ≠ 0 → calculateZScore (.num v) (.num m) (.num s) = .num ((v - m) / s))
    ∧ (∀ q s : ℚ, s ≠ 0 → calculateZScore (.num q) .undef (.num s) = .nan)
    ∧ (∀ q : ℚ, calculateZScore (.num q) .undef .undef = .nan) := by
  refine ⟨?_, ?_, ?_, ?_, ?_, ?_, ?_⟩
  · intro m s
    simp [calculateZScore]
  · intro v s
    simp [calculateZScore]
  · intro v m
    simp [calculateZScore]
  · intro v m
    simp [calculateZScore]
  · intro v m s hs
    simp [calculateZScore, hs]
  · intro q s hs
    simp [calculateZScore, hs]
  · intro q
    simp [calculateZScore]

theorem C4_zscore_characterization_witness :
    calculateZScore (.num 50) (.num 20) (.num 5) = .num ((50 - 20) / 5) :=
  C4_zscore_characterization.2.2.2.2.1 50 20 5 (by norm_num)

/-- C7: an empty trailing window makes the baseline estimator return null
(no per-feature entries), the scorer run against that null baseline yields
zero rows, and the aggregate anomaly score of that run is 0. -/
theorem C7_empty_window (f : (FeatureKey → Option FeatStat) → ScorerBaseline)
    (rdAll : List RoomRow) (ds : Option DayStats) (rd : List RoomRow)
    (pat : Option (List ℚ)) :
    loadBaselineStats [] rdAll = none
    ∧ scoreBreakdown ds ((loadBaselineStats [] rdAll).map f) rd pat = []
    ∧ anomalyScore (scoreBreakdown ds ((loadBaselineStats [] rdAll).map f) rd pat) = 0 := by
  have h1 : loadBaselineStats [] rdAll = none := by simp [loadBaselineStats]
  have h2 : scoreBreakdown ds ((loadBaselineStats [] rdAll).map f) rd pat = [] := by
    rw [h1]
    cases ds <;> rfl
  refine ⟨h1, h2, ?_⟩
  rw [h2]
  rfl

/-- The same day with both activity timestamps null, so that
`awake_duration` has no today value (and `bsTE` gives it no baseline). -/
def dsC3 : DayStats := { ds50 with first_activity := none, last_activity := none }

/-- The scoring run exhibiting rows for features lacking inputs. -/
def rowsC3 : List ScoreRow := scoreBreakdown (some dsC3) (some bsTE) [] (some [])

set_option maxHeartbeats 1000000 in
lemma rowsC3_take3 :
    rowsC3.take 3 =
      [⟨.first_activity, 1, .nan, .low⟩, ⟨.last_activity, 1, .nan, .low⟩,
        ⟨.awake_duration, 4/5, .num 0, .low⟩] := by
  have tn : timeToMinutes none = .num 0 := by decide
  have an : awakeDuration none none = .null := by decide
  norm_num [rowsC3, scoreBreakdown, activeFeatures, allFeatures, dsC3, ds50, bsTE,
    getTodayValue, optNum, sevOf, sumEventsInRange, cosineSimilarity, tn, an,
    calculateZScore_nums, calculateZScore_num_undef, calculateZScore_null_undef, sevOf_nan]

set_option maxHeartbeats 1000000 in
lemma validScores_rowsC3 :
    validScores rowsC3 =
      [⟨.awake_duration, 4/5, .num 0, .low⟩, ⟨.total_events, 1, .num 6, .high⟩] := by
  have tn : timeToMinutes none = .num 0 := by decide
  have an : awakeDuration none none = .null := by decide
  norm_num [rowsC3, scoreBreakdown, validScores, activeFeatures, allFeatures, dsC3, ds50, bsTE,
    getTodayValue, optNum, sevOf, sumEventsInRange, cosineSimilarity, JV.isNum,
    tn, an, List.filter,
    calculateZScore_nums, calculateZScore_num_undef, calculateZScore_null_undef, sevOf_nan]

/-- C3 counterexample: in a run where the active feature `awake_duration`
has a null today value and no baseline entry, the scorer still emits a row
for it (third row, z-score 0) — and that row even passes the valid-scores
filter feeding the aggregate.  Features lacking inputs are not omitted. -/
theorem C3_missing_inputs_row_cex :
    rowsC3.take 3 =
      [⟨.first_activity, 1, .nan, .low⟩, ⟨.last_activity, 1, .nan, .low⟩,
        ⟨.awake_duration, 4/5, .num 0, .low⟩]
    ∧ getTodayValue [] (some []) dsC3 .awake_duration = .null
    ∧ bsTE.avg .awake_duration = .undef
    ∧ validScores rowsC3 =
        [⟨.awake_duration, 4/5, .num 0, .low⟩, ⟨.total_events, 1, .num 6, .high⟩] :=
  ⟨rowsC3_take3, by decide, rfl, validScores_rowsC3⟩

/-- C3 amended: `scoreBreakdown` emits exactly one row per active feature,
in catalog order, regardless of whether the feature has a today value or a
baseline entry (a null today value scores 0 and stays in the aggregate's
valid rows; a missing baseline entry gives NaN, dropped from the
aggregate but still present in the rows). -/
theorem C3_one_row_per_active_feature (d : DayStats) (b : ScorerBaseline)
    (rd : List RoomRow) (pat : Option (List ℚ)) :
    (scoreBreakdown (some d) (some b) rd pat).map (·.key) =
      (activeFeatures (some d)).map (·.key) := by
  simp [scoreBreakdown, List.map_map, Function.comp]

/-- Two historical days whose only surviving feature values are
`total_events = 0` and `total_events = 1`. -/
def hist5 : List DayStats :=
  [ { date := "2024-01-01", total_events := some 0 },
    { date := "2024-01-02", total_events := some 1 } ]

set_option maxHeartbeats 1000000 in
lemma baseline_hist5 :
    (loadBaselineStats hist5 []).map (fun bl => bl .total_events) =
      some (some ⟨1/2, 1/4, 0, 1⟩) := by
  norm_num [loadBaselineStats, hist5, featValues, getHistoricalValue, getTodayValue,
    optNum, jvFinite, avgHourlyPattern, roomByDate, meanL, varL, minL, maxL,
    List.filterMap, List.filter, List.isEmpty, timeToMinutes, timeToMinutesZ, falsyS,
    awakeDuration, sumEventsInRange, cosineSimilarity]

/-- C5 counterexample: the two-day history with values {0, 1} stores a
baseline entry for `total_events` with variance 1/4, whose stored stddev
`Math.sqrt(1/4) || 1 = 1/2` is strictly below 1 — `|| 1` replaces only an
exactly-zero stddev, it is not a floor at 1.  The shared `stddev` helper
behaves the same on `[0, 1]`. -/
theorem C5_std_below_one_cex :
    (loadBaselineStats hist5 []).map (fun bl => bl .total_events) =
      some (some ⟨1/2, 1/4, 0, 1⟩)
    ∧ storedStd (1/4) = 1/2
    ∧ ¬ (1:ℝ) ≤ storedStd (1/4)
    ∧ stddev [0, 1] = 1/2 := by
  have hs : Real.sqrt ((1/4 : ℚ) : ℝ) = 1/2 := by
    have h4 : ((1/4 : ℚ) : ℝ) = (1/2 : ℝ)^2 := by norm_num
    rw [h4, Real.sqrt_sq (by norm_num)]
  have hstored : storedStd (1/4) = 1/2 := by
    unfold storedStd
    rw [hs, if_neg (by norm_num)]
  refine ⟨baseline_hist5, hstored, by rw [hstored]; norm_num, ?_⟩
  have hv : varL [0, 1] = 1/4 := by
    norm_num [varL, meanL]
  unfold stddev
  rw [if_neg (by norm_num), hv, hstored]

/-- C5 amended: the stored per-feature stddev is at least 1 exactly when
the sample variance is 0 (degenerate, replaced by 1) or at least 1; for
variances strictly between 0 and 1 the stored stddev is the true square
root, strictly below 1. -/
theorem C5_storedStd_ge_one_iff (v : ℚ) (hv : 0 ≤ v) :
    (1 ≤ storedStd v ↔ v = 0 ∨ 1 ≤ v) := by
  unfold storedStd
  rcases eq_or_lt_of_le hv with h0 | hpos
  · rw [← h0]
    norm_num
  · have hcast : (0:ℝ) < (v:ℝ) := by exact_mod_cast hpos
    have hsqrt : Real.sqrt (v:ℝ) ≠ 0 := ne_of_gt (Real.sqrt_pos.mpr hcast)
    rw [if_neg hsqrt, Real.one_le_sqrt]
    constructor
    · intro h
      right
      exact_mod_cast h
    · rintro (h | h)
      · exact absurd h (ne_of_gt hpos)
      · exact_mod_cast h

theorem C5_storedStd_ge_one_iff_witness :
    (1 ≤ storedStd 4 ↔ (4:ℚ) = 0 ∨ 1 ≤ (4:ℚ)) :=
  C5_storedStd_ge_one_iff 4 (by norm_num)

/-- A one-day history of a single-room household: `rooms_available = 1`,
`rooms_active = 1`. -/
def hist6 : List DayStats :=
  [ { date := "2024-01-01", rooms_active := some 1, rooms_available := some 1 } ]

set_option maxHeartbeats 1000000 in
lemma baseline_hist6 :
    (loadBaselineStats hist6 []).map (fun bl => bl .room_ratio) =
      some (some ⟨1, 0, 1, 1⟩) := by
  norm_num [loadBaselineStats, hist6, featValues, getHistoricalValue, getTodayValue,
    optNum, jvFinite, avgHourlyPattern, roomByDate, meanL, varL, minL, maxL,
    List.filterMap, List.filter, List.isEmpty, timeToMinutes, timeToMinutesZ, falsyS,
    awakeDuration, sumEventsInRange, cosineSimilarity]

/-- C6 counterexample: for a household whose every historical day has
`rooms_available = 1`, the baseline estimator (which loops over all
features, not the active ones) still stores a `room_ratio` entry. -/
theorem C6_baseline_room_entry_cex :
    hist6.all (fun d => decide ((d.rooms_available.getD 0 : ℚ) ≤ 1)) = true
    ∧ (loadBaselineStats hist6 []).map (fun bl => bl .room_ratio) =
        some (some ⟨1, 0, 1, 1⟩) := by
  refine ⟨?_, baseline_hist6⟩
  norm_num [hist6]

/-- C6 amended: the scorer's rows never reference a room feature when
`rooms_available ≤ 1` (the active-features filter applies to scoring and
today-extraction), but the baseline estimator iterates the full catalog
and can store room-feature entries even for a single-room household. -/
theorem C6_room_filter_scoring_only (ds : Option DayStats) (bs : Option ScorerBaseline)
    (rd : List RoomRow) (pat : Option (List ℚ))
    (h : ((ds.bind (·.rooms_available)).getD 0 : ℚ) ≤ 1) :
    ((scoreBreakdown ds bs rd pat).map (·.key)).all
      (fun k => decide (k ≠ FeatureKey.room_ratio ∧ k ≠ FeatureKey.main_room_pct ∧
        k ≠ FeatureKey.transition_count)) = true
    ∧ (loadBaselineStats hist6 []).map (fun bl => bl .room_ratio) =
        some (some ⟨1, 0, 1, 1⟩) := by
  refine ⟨?_, baseline_hist6⟩
  have hkeys : ∀ f ∈ allFeatures, f.isRoomFeature = false →
      (f.key ≠ FeatureKey.room_ratio ∧ f.key ≠ FeatureKey.main_room_pct ∧
        f.key ≠ FeatureKey.transition_count) := by decide
  match ds, bs with
  | none, _ => rfl
  | some d, none => rfl
  | some d, some b =>
    rw [List.all_eq_true]
    intro k hk
    rw [List.mem_map] at hk
    obtain ⟨r, hr, rfl⟩ := hk
    rw [scoreBreakdown, List.mem_map] at hr
    obtain ⟨f, hf, rfl⟩ := hr
    rw [activeFeatures, List.mem_filter] at hf
    obtain ⟨hmem, hcond⟩ := hf
    have hroom : f.isRoomFeature = false := by
      by_contra hrf
      rw [eq_true_of_ne_false hrf] at hcond
      simp only [if_true] at hcond
      rw [decide_eq_true_eq] at hcond
      exact absurd hcond (not_lt.mpr h)
    rw [decide_eq_true_eq]
    exact hkeys f hmem hroom

theorem C6_room_filter_scoring_only_witness :
    ((scoreBreakdown (some ds50) (some bsTE) [] (some [])).map (·.key)).all
      (fun k => decide (k ≠ FeatureKey.room_ratio ∧ k ≠ FeatureKey.main_room_pct ∧
        k ≠ FeatureKey.transition_count)) = true
    ∧ (loadBaselineStats hist6 []).map (fun bl => bl .room_ratio) =
        some (some ⟨1, 0, 1, 1⟩) :=
  C6_room_filter_scoring_only (some ds50) (some bsTE) [] (some []) (by norm_num [ds50])

/-- C8 counterexample: "00:00" is a valid time string, yet
`awakeDuration("00:00", "00:00")` returns null, not 0 — both parses are 0
and the "no real timestamp" guard fires. -/
theorem C8_awake_midnight_cex :
    awakeDuration (some "00:00") (some "00:00") = .null ∧ JV.null ≠ JV.num 0 :=
  ⟨by decide, by decide⟩

/-- C8 amended: `awakeDuration(t, t) = 0` for every time string parsing to
a nonzero minute count (at a string parsing to 0, such as "00:00", it
returns null instead); an absent input gives null in either position; and
with both inputs present and not both parsing to 0 it equals
`max(0, minutes(last) − minutes(first))`. -/
theorem C8_awakeDuration_characterization :
    (∀ s : String, ∀ z : ℤ, timeToMinutesZ (some s) = some z → z ≠ 0 →
      awakeDuration (some s) (some s) = .num 0)
    ∧ (∀ t : Option String, awakeDuration none t = .null ∧ awakeDuration t none = .null)
    ∧ (∀ f l : Option String, ∀ a b : ℤ,
        falsyS f = false → falsyS l = false →
        timeToMinutesZ f = some a → timeToMinutesZ l = some b → ¬(a = 0 ∧ b = 0) →
        awakeDuration f l = .num ((max 0 (b - a) : ℤ) : ℚ)) := by
  refine ⟨?_, ?_, ?_⟩
  · intro s z hz hz0
    by_cases hs : s = ""
    · exfalso
      rw [hs] at hz
      have : z = 0 := by
        have h0 : timeToMinutesZ (some "") = some 0 := by decide
        rw [h0] at hz
        exact (Option.some_inj.mp hz).symm
      exact hz0 this
    · unfold awakeDuration
      rw [if_neg (by simp [falsyS, hs])]
      rw [hz]
      simp [hz0]
  · intro t
    constructor
    · unfold awakeDuration
      rw [if_pos (Or.inl (by simp [falsyS]))]
    · unfold awakeDuration
      rw [if_pos (Or.inr (by simp [falsyS]))]
  · intro f l a b hf hl ha hb hab
    unfold awakeDuration
    rw [if_neg (by simp [hf, hl])]
    rw [ha, hb]
    simp [hab]

theorem C8_awakeDuration_characterization_witness :
    awakeDuration (some "10:00") (some "10:00") = .num 0 :=
  C8_awakeDuration_characterization.1 "10:00" 600 (by decide) (by decide)

section TimeRoundTrip

lemma splitCh_no_colon (l : List Char) (h : ':' ∉ l) : splitCh l = [l] := by
  induction l with
  | nil => rfl
  | cons c rest ih =>
    have hc : ¬ c = ':' := by
      intro hc
      exact h (by rw [hc]; exact List.mem_cons_self _ _)
    have hrest : ':' ∉ rest := fun hm => h (List.mem_cons_of_mem c hm)
    simp only [splitCh, if_neg hc, ih hrest]

lemma splitCh_append (l1 l2 : List Char) (h : ':' ∉ l1) :
    splitCh (l1 ++ ':' :: l2) = l1 :: splitCh l2 := by
  induction l1 with
  | nil => simp only [List.nil_append, splitCh, if_pos]
  | cons c rest ih =>
    have hc : ¬ c = ':' := by
      intro hc
      exact h (by rw [hc]; exact List.mem_cons_self _ _)
    have hrest : ':' ∉ rest := fun hm => h (List.mem_cons_of_mem c hm)
    simp only [List.cons_append, splitCh, if_neg hc, List.append_eq]
    rw [ih hrest]

lemma parse_pad : ∀ n : ℕ, n < 60 →
    parseIntZ (padStart2 (toString (n : ℤ))).data = some (n : ℤ) := by decide

lemma pad_no_colon : ∀ n : ℕ, n < 60 →
    ':' ∉ (padStart2 (toString (n : ℤ))).data := by decide

/-- Parsing a two-segment time string built from colon-free components. -/
lemma parse_two (p1 p2 : String) (h1 : ':' ∉ p1.data) (h2 : ':' ∉ p2.data)
    (a b : ℤ) (ha : parseIntZ p1.data = some a) (hb : parseIntZ p2.data = some b) :
    timeToMinutes (some (p1 ++ ":" ++ p2)) = .num ((a * 60 + b : ℤ) : ℚ) := by
  have hdata : (p1 ++ ":" ++ p2).data = p1.data ++ ':' :: p2.data := by
    rw [String.data_append, String.data_append]
    simp [show (":" : String).data = [':'] from rfl]
  have hne : falsyS (some (p1 ++ ":" ++ p2)) = false := by
    simp only [falsyS, decide_eq_false_iff_not]
    intro heq
    have hnil : (p1 ++ ":" ++ p2).data = [] := by rw [heq]
    rw [hdata] at hnil
    simp at hnil
  have hz : timeToMinutesZ (some (p1 ++ ":" ++ p2)) = some (a * 60 + b) := by
    unfold timeToMinutesZ
    rw [hne]
    simp only [Bool.false_eq_true, if_false, Option.getD_some]
    rw [hdata, splitCh_append _ _ h1, splitCh_no_colon _ h2]
    simp only [parseIntAt, List.get?]
    rw [ha, hb]
  unfold timeToMinutes
  rw [hz]

/-- Parsing a three-segment time string: the seconds segment is split off
but never read, so only the first two components matter. -/
lemma parse_three (p1 p2 p3 : String) (h1 : ':' ∉ p1.data) (h2 : ':' ∉ p2.data)
    (a b : ℤ) (ha : parseIntZ p1.data = some a) (hb : parseIntZ p2.data = some b) :
    timeToMinutes (some (p1 ++ ":" ++ p2 ++ ":" ++ p3)) = .num ((a * 60 + b : ℤ) : ℚ) := by
  have hdata : (p1 ++ ":" ++ p2 ++ ":" ++ p3).data =
      p1.data ++ ':' :: (p2.data ++ ':' :: p3.data) := by
    rw [String.data_append, String.data_append, String.data_append, String.data_append]
    simp [show (":" : String).data = [':'] from rfl]
  have hne : falsyS (some (p1 ++ ":" ++ p2 ++ ":" ++ p3)) = false := by
    simp only [falsyS, decide_eq_false_iff_not]
    intro heq
    have hnil : (p1 ++ ":" ++ p2 ++ ":" ++ p3).data = [] := by rw [heq]
    rw [hdata] at hnil
    simp at hnil
  have hz : timeToMinutesZ (some (p1 ++ ":" ++ p2 ++ ":" ++ p3)) = some (a * 60 + b) := by
    unfold timeToMinutesZ
    rw [hne]
    simp only [Bool.false_eq_true, if_false, Option.getD_some]
    rw [hdata, splitCh_append _ _ h1, splitCh_append _ _ h2]
    simp only [parseIntAt, List.get?]
    rw [ha, hb]
  unfold timeToMinutes
  rw [hz]

/-- The formatter on an integer minute count in range produces the padded
`HH:MM` string of the hour and minute parts. -/
lemma format_eval_parts (k r : ℕ) (hr : r < 60) :
    formatMinutesToTime (some ((60 * k + r : ℕ) : ℚ)) =
      some (padStart2 (toString (k : ℤ)) ++ ":" ++ padStart2 (toString (r : ℤ))) := by
  have h1 : ⌊((60 * k + r : ℕ) : ℚ) / 60⌋ = (k : ℤ) := by
    rw [Int.floor_eq_iff]
    push_cast
    constructor
    · rw [le_div_iff₀ (by norm_num : (0:ℚ) < 60)]
      have h0 : (0:ℚ) ≤ (r:ℚ) := by positivity
      linarith
    · rw [div_lt_iff₀ (by norm_num : (0:ℚ) < 60)]
      have hc : (r:ℚ) < 60 := by exact_mod_cast hr
      linarith
  have htr : jsTrunc (((60 * k + r : ℕ) : ℚ) / 60) = (k : ℤ) := by
    unfold jsTrunc
    rw [if_pos (by positivity), h1]
  have h2 : jsMod ((60 * k + r : ℕ) : ℚ) 60 = (r : ℚ) := by
    unfold jsMod
    rw [htr]
    push_cast
    ring
  have h3 : jsRound ((r : ℚ)) = (r : ℤ) := by
    unfold jsRound
    rw [Int.floor_eq_iff]
    push_cast
    constructor <;> linarith
  show some _ = _
  rw [h1, h2, h3]

/-- The formatter on an integer minute count in range produces the padded
`HH:MM` string of the hour and minute parts. -/
lemma format_eval (m : ℕ) :
    formatMinutesToTime (some (m : ℚ)) =
      some (padStart2 (toString ((m / 60 : ℕ) : ℤ)) ++ ":" ++
        padStart2 (toString ((m % 60 : ℕ) : ℤ))) := by
  have hdm : m = 60 * (m / 60) + m % 60 := (Nat.div_add_mod m 60).symm
  have hmod : m % 60 < 60 := Nat.mod_lt _ (by norm_num)
  calc formatMinutesToTime (some (m : ℚ))
      = formatMinutesToTime (some ((60 * (m / 60) + m % 60 : ℕ) : ℚ)) := by rw [← hdm]
    _ = _ := format_eval_parts (m / 60) (m % 60) hmod

/-- C9: formatting any whole minute count in [0, 1439] and parsing it back
returns the same count. -/
theorem C9_format_parse_roundtrip (m : ℕ) (hm : m < 1440) :
    timeToMinutes (formatMinutesToTime (some (m : ℚ))) = .num (m : ℚ) := by
  have hdiv : m / 60 < 60 := by omega
  have hmod : m % 60 < 60 := Nat.mod_lt _ (by norm_num)
  rw [format_eval m]
  rw [parse_two _ _ (pad_no_colon _ hdiv) (pad_no_colon _ hmod) _ _
    (parse_pad _ hdiv) (parse_pad _ hmod)]
  congr 1
  have hz : ((m / 60 : ℕ) : ℤ) * 60 + ((m % 60 : ℕ) : ℤ) = (m : ℤ) := by omega
  rw [hz]
  push_cast
  rfl

theorem C9_format_parse_roundtrip_witness :
    timeToMinutes (formatMinutesToTime (some ((630 : ℕ) : ℚ))) = .num ((630 : ℕ) : ℚ) :=
  C9_format_parse_roundtrip 630 (by norm_num)

/-- C10: a well-formed `HH:MM:SS` string parses to `60·HH + MM` — the
seconds segment is split off but never read — identically to the
corresponding `HH:MM` string. -/
theorem C10_seconds_discarded (hh mm ss : ℕ) (h1 : hh < 24) (h2 : mm < 60) (_h3 : ss < 60) :
    timeToMinutes (some (padStart2 (toString (hh : ℤ)) ++ ":" ++
        padStart2 (toString (mm : ℤ)) ++ ":" ++ padStart2 (toString (ss : ℤ)))) =
      .num ((60 * hh + mm : ℕ) : ℚ)
    ∧ timeToMinutes (some (padStart2 (toString (hh : ℤ)) ++ ":" ++
        padStart2 (toString (mm : ℤ)))) = .num ((60 * hh + mm : ℕ) : ℚ) := by
  have hh60 : hh < 60 := by omega
  constructor
  · rw [parse_three _ _ _ (pad_no_colon _ hh60) (pad_no_colon _ h2) _ _
      (parse_pad _ hh60) (parse_pad _ h2)]
    congr 1
    push_cast
    ring
  · rw [parse_two _ _ (pad_no_colon _ hh60) (pad_no_colon _ h2) _ _
      (parse_pad _ hh60) (parse_pad _ h2)]
    congr 1
    push_cast
    ring

theorem C10_seconds_discarded_witness :
    timeToMinutes (some (padStart2 (toString ((7 : ℕ) : ℤ)) ++ ":" ++
        padStart2 (toString ((15 : ℕ) : ℤ)) ++ ":" ++ padStart2 (toString ((30 : ℕ) : ℤ)))) =
      .num ((60 * 7 + 15 : ℕ) : ℚ) :=
  (C10_seconds_discarded 7 15 30 (by norm_num) (by norm_num) (by norm_num)).1

end TimeRoundTrip

example : timeToMinutesZ (some "06:30") = some 390 := by decide
example : timeToMinutesZ (some "22:00") = some 1320 := by decide
example : timeToMinutesZ none = some 0 := by decide
example : timeToMinutesZ (some "07:15:30") = some 435 := by decide
example : timeToMinutesZ (some "725") = none := by decide
example : awakeDuration (some "00:00") (some "00:00") = .null := by decide
example : awakeDuration (some "06:30") (some "22:00") = .num ((930:ℤ) : ℚ) := by decide
example : awakeDuration none (some "10:00") = .null := by decide
example : padStart2 (toString (6:ℤ)) = "06" := by decide
example : padStart2 (toString (23:ℤ)) = "23" := by decide

end Gerust
